import Mathlib

/-!
Shallow embedding of the `xprocess` library (`src/lib.rs`).

The library spawns a detached child process with stdin set to null and both
stdout and stderr piped, installs a pre-exec hook that calls `setsid`, exposes
the OS-assigned pid, offers blocking read-to-end accessors for the captured
streams, and requests termination by shelling out to the external `kill`
command with the pid rendered in decimal.

Interaction with the operating system is modelled by explicit outcome
parameters (`SpawnOutcome` for the spawn syscall, `KillOutcome` for running
the external kill facility); everything the library itself computes is a
plain Lean function translated from the Rust source.
-/

namespace XProcess

/-- Mirrors `std::process::Stdio`: configuration of one standard stream of a
command about to be spawned. -/
inductive Stdio where
  | inherit
  | null
  | piped
  deriving DecidableEq, Repr

/-- Mirrors the fields of `std::process::Command` that the library touches:
the program, its argument vector, the three stream configurations, and
whether the `setsid` pre-exec hook has been installed. -/
structure Command where
  program : String
  args : List String
  stdinCfg : Stdio
  stdoutCfg : Stdio
  stderrCfg : Stdio
  preExecSetsid : Bool
  deriving DecidableEq, Repr

/-- Mirrors `Command::new`: a fresh command with an empty argument vector,
all streams inherited, and no pre-exec hook installed. -/
def Command.new (program : String) : Command :=
  { program := program
    args := []
    stdinCfg := Stdio.inherit
    stdoutCfg := Stdio.inherit
    stderrCfg := Stdio.inherit
    preExecSetsid := false }

/-- Mirrors `Command::args`: appends a sequence of arguments. -/
def Command.argsAppend (c : Command) (more : List String) : Command :=
  { c with args := c.args ++ more }

/-- Mirrors `Command::arg`: appends one argument. -/
def Command.arg (c : Command) (a : String) : Command :=
  { c with args := c.args ++ [a] }

/-- A continuation byte of a UTF-8 sequence lies in `0x80..=0xBF`. -/
def isCont (b : Nat) : Bool :=
  decide (0x80 ≤ b) && decide (b < 0xC0)

/-- Strict UTF-8 decoder, modelling the validation performed by Rust's
`Read::read_to_string` (which rejects byte streams that are not valid UTF-8).
`utf8Run l need lo acc` decodes `l` given that `need` continuation bytes of a
multi-byte sequence are still expected, `lo` is the smallest code point the
current sequence may legally encode (overlong-encoding rejection), and `acc`
is the code point accumulated so far. -/
def utf8Run : List Nat → Nat → Nat → Nat → Option (List Char)
  | [], 0, _, _ => some []
  | [], _ + 1, _, _ => none
  | b :: rest, 0, _, _ =>
    if b < 0x80 then
      (utf8Run rest 0 0 0).map (fun cs => Char.ofNat b :: cs)
    else if b < 0xC2 then
      none
    else if b < 0xE0 then
      utf8Run rest 1 0x80 (b - 0xC0)
    else if b < 0xF0 then
      utf8Run rest 2 0x800 (b - 0xE0)
    else if b < 0xF5 then
      utf8Run rest 3 0x10000 (b - 0xF0)
    else
      none
  | c :: rest, 1, lo, acc =>
    if isCont c then
      if lo ≤ acc * 64 + (c - 0x80) ∧ acc * 64 + (c - 0x80) ≤ 0x10FFFF ∧
          ¬ (0xD800 ≤ acc * 64 + (c - 0x80) ∧ acc * 64 + (c - 0x80) ≤ 0xDFFF) then
        (utf8Run rest 0 0 0).map (fun cs => Char.ofNat (acc * 64 + (c - 0x80)) :: cs)
      else
        none
    else
      none
  | c :: rest, n + 2, lo, acc =>
    if isCont c then
      utf8Run rest (n + 1) lo (acc * 64 + (c - 0x80))
    else
      none

/-- Decodes a whole byte stream as UTF-8 text, or fails. -/
def utf8DecodeString (l : List Nat) : Option String :=
  (utf8Run l 0 0 0).map (fun cs => String.mk cs)

/-- Mirrors `Read::read_to_string` applied to a pipe that already holds the
bytes `bytes` followed by end-of-stream: all bytes are consumed and decoded
as UTF-8; invalid data yields the standard-library error message. -/
def readToString (bytes : List Nat) : Except String String :=
  match utf8DecodeString bytes with
  | some s => Except.ok s
  | none => Except.error "stream did not contain valid UTF-8"

/-- Mirrors `std::process::Child` as the library uses it: the OS-assigned id
and the optional capture handles. A capture handle `some bytes` is a pipe
whose still-unread content is `bytes`; `none` means the stream was not
piped. -/
structure Child where
  id : Nat
  stdout : Option (List Nat)
  stderr : Option (List Nat)
  deriving DecidableEq, Repr

/-- Mirrors the `Process` struct of the library. -/
structure Process where
  pid : Nat
  child : Option Child
  deriving DecidableEq, Repr

/-- Outcome of the underlying OS spawn syscall, an input of the model: either
the OS creates the child, assigning it a pid and determining the byte
sequence each of its piped output streams will ever deliver, or the spawn
fails with an OS error description. -/
inductive SpawnOutcome where
  | success (pid : Nat) (outBytes errBytes : List Nat)
  | failure (osError : String)
  deriving DecidableEq, Repr

/-- Mirrors `Command::spawn`: on OS success, a `Child` whose capture handles
are present exactly for the streams configured as piped; on OS failure, the
error description is surfaced. -/
def osSpawn (cmd : Command) (world : SpawnOutcome) : Except String Child :=
  match world with
  | SpawnOutcome.failure e => Except.error e
  | SpawnOutcome.success pid outB errB =>
    Except.ok
      { id := pid
        stdout := if cmd.stdoutCfg = Stdio.piped then some outB else none
        stderr := if cmd.stderrCfg = Stdio.piped then some errB else none }

/-- Mirrors the body of the pre-exec closure in `spawn_child_process`: it
calls `libc::setsid()`, ignores its return value, and reports success. The
argument is the value returned by `setsid` in the child. -/
def preExecHook (_setsidRet : Int) : Except String Unit :=
  Except.ok ()

/-- An observable step of the child's own execution between its creation and
the start of the target program. -/
inductive ChildEvent where
  | setsidCall
  | execProgram (program : String) (args : List String)
  deriving DecidableEq, Repr

/-- Modelled from the spec and the standard library's `CommandExt::pre_exec`
contract (the hook code is in `src/lib.rs`; the post-fork/pre-exec timing is
std behaviour): hooks installed on the command run in the child's execution
context after the OS creates the child and before the target program is
executed. -/
def childExecTrace (cmd : Command) : List ChildEvent :=
  (if cmd.preExecSetsid then [ChildEvent.setsidCall] else [])
    ++ [ChildEvent.execProgram cmd.program cmd.args]

/-- The stream and hook configuration that `spawn_child_process` applies to
its command before spawning: stdin null, stdout piped, stderr piped, and the
`setsid` pre-exec hook installed. -/
def Process.configure (cmd : Command) : Command :=
  { cmd with
    stdinCfg := Stdio.null
    stdoutCfg := Stdio.piped
    stderrCfg := Stdio.piped
    preExecSetsid := true }

/-- Mirrors `Process::spawn_child_process`: configure the command, attempt
the OS spawn, and on success build the handle with `pid` taken from the
child's OS-assigned id. -/
def Process.spawn_child_process (cmd : Command) (world : SpawnOutcome) :
    Except String Process :=
  match osSpawn (Process.configure cmd) world with
  | Except.error e => Except.error e
  | Except.ok c => Except.ok { pid := c.id, child := some c }

/-- Mirrors `Process::build_command`: `Command::new(cmd)` followed by
`command.args(args)`. -/
def Process.build_command (cmd : String) (args : List String) : Command :=
  (Command.new cmd).argsAppend args

/-- Mirrors `Process::spawn_with_args`. -/
def Process.spawn_with_args (cmd : String) (args : List String)
    (world : SpawnOutcome) : Except String Process :=
  Process.spawn_child_process (Process.build_command cmd args) world

/-- Mirrors `Process::spawn`: builds the command with an empty argument
sequence and delegates to `spawn_child_process`. -/
def Process.spawn (cmd : String) (world : SpawnOutcome) :
    Except String Process :=
  Process.spawn_child_process (Process.build_command cmd []) world

/-- Mirrors `Process::stdout`: if the child and its stdout capture handle are
present, read the pipe to end-of-stream (draining it, so its remaining
content becomes empty) and decode the bytes; otherwise return an empty
string. The returned pair is the result together with the handle after the
call, embedding the `&mut self` receiver. -/
def Process.stdout (p : Process) : Except String String × Process :=
  match p.child with
  | some c =>
    match c.stdout with
    | some bytes =>
      (readToString bytes, { p with child := some { c with stdout := some [] } })
    | none => (Except.ok "", p)
  | none => (Except.ok "", p)

/-- Mirrors `Process::stderr`, symmetric to `Process.stdout`. -/
def Process.stderr (p : Process) : Except String String × Process :=
  match p.child with
  | some c =>
    match c.stderr with
    | some bytes =>
      (readToString bytes, { p with child := some { c with stderr := some [] } })
    | none => (Except.ok "", p)
  | none => (Except.ok "", p)

/-- Outcome of invoking the external kill facility, an input of the model:
either the facility ran and exited with the given status (`some code` for a
normal exit, `none` for termination by a signal), or it could not be invoked
at all and the OS reported an error description. -/
inductive KillOutcome where
  | ran (exitCode : Option Nat)
  | notInvoked (osError : String)
  deriving DecidableEq, Repr

/-- Mirrors `ExitStatus::success`: true exactly on a normal exit with code
zero. -/
def statusSuccess (exitCode : Option Nat) : Bool :=
  decide (exitCode = some 0)

/-- The command that `Process::kill` invokes:
`Command::new("kill").arg(self.pid().to_string())`, the pid rendered in
decimal by `u32::to_string`. -/
def Process.killCommand (p : Process) : Command :=
  (Command.new "kill").arg (Nat.repr p.pid)

/-- Mirrors `Command::status` for the kill facility: the exit status when the
facility ran, or the OS error when it could not be invoked. The command
itself carries no information about the outcome; the environment decides. -/
def runStatus (_c : Command) (world : KillOutcome) :
    Except String (Option Nat) :=
  match world with
  | KillOutcome.ran st => Except.ok st
  | KillOutcome.notInvoked e => Except.error e

/-- Mirrors `Process::kill`: run the kill command on the pid; success of the
facility's exit status is the sole success signal, a non-success status
yields the error message carrying the pid, and a failure to invoke the
facility yields the error message carrying the OS error. The receiver is
`&self`, so the handle after the call is returned unchanged. -/
def Process.kill (p : Process) (world : KillOutcome) :
    Except String Unit × Process :=
  match runStatus p.killCommand world with
  | Except.ok status =>
    if statusSuccess status then
      (Except.ok (), p)
    else
      (Except.error ("Failed to kill process with PID: " ++ Nat.repr p.pid), p)
  | Except.error e =>
    (Except.error ("Error executing kill command: " ++ e), p)

/-- Helper: on a successful OS spawn, `spawn_with_args` yields exactly the
handle whose pid is the OS-assigned id and whose child carries both piped
capture handles. -/
theorem spawn_with_args_success (cmd : String) (args : List String)
    (pid0 : Nat) (outB errB : List Nat) :
    Process.spawn_with_args cmd args (SpawnOutcome.success pid0 outB errB)
      = Except.ok
          { pid := pid0
            child := some { id := pid0, stdout := some outB, stderr := some errB } } := by
  simp [Process.spawn_with_args, Process.spawn_child_process, osSpawn,
    Process.configure, Process.build_command, Command.new, Command.argsAppend]

/-- Helper: the handle after a `kill` call is the handle before it (the
receiver is borrowed immutably). -/
theorem kill_preserves_handle (p : Process) (world : KillOutcome) :
    (p.kill world).2 = p := by
  cases world with
  | ran st =>
    by_cases h : statusSuccess st = true <;> simp [Process.kill, runStatus, h]
  | notInvoked e => simp [Process.kill, runStatus]

/-- C1: for every handle returned by `spawn` or `spawn_with_args` (on a
successful spawn whose streams carry valid text), the first call to the
stdout accessor returns the full captured output and the second call returns
an empty string with no error; symmetrically for stderr. -/
theorem stdout_first_full_second_empty
    (cmd : String) (args : List String) (pid0 : Nat) (outB errB : List Nat)
    (p : Process) (sOut sErr : String)
    (hp : Process.spawn_with_args cmd args (SpawnOutcome.success pid0 outB errB)
      = Except.ok p)
    (hOut : utf8DecodeString outB = some sOut)
    (hErr : utf8DecodeString errB = some sErr) :
    p.stdout.1 = Except.ok sOut
    ∧ p.stdout.2.stdout.1 = Except.ok ""
    ∧ p.stderr.1 = Except.ok sErr
    ∧ p.stderr.2.stderr.1 = Except.ok "" := by
  rw [spawn_with_args_success] at hp
  have h :
      ({ pid := pid0
         child := some { id := pid0, stdout := some outB, stderr := some errB } } : Process)
        = p := by
    exact Except.ok.inj hp
  subst h
  refine ⟨?_, ?_, ?_, ?_⟩
  · simp [Process.stdout, readToString, hOut]
  · simp [Process.stdout, readToString, utf8DecodeString, utf8Run]
  · simp [Process.stderr, readToString, hErr]
  · simp [Process.stderr, readToString, utf8DecodeString, utf8Run]

/-- Witness for C1 at a concrete spawn: stdout bytes "out", stderr bytes
"err". -/
theorem stdout_first_full_second_empty_witness :
    (Process.stdout
      { pid := 1
        child := some { id := 1, stdout := some [111, 117, 116], stderr := some [101, 114, 114] } }).1
      = Except.ok "out" :=
  (stdout_first_full_second_empty "echo" ["x"] 1 [111, 117, 116] [101, 114, 114]
    { pid := 1
      child := some { id := 1, stdout := some [111, 117, 116], stderr := some [101, 114, 114] } }
    "out" "err" (by rw [spawn_with_args_success]) (by decide) (by decide)).1

/-- C2: the pre-exec hook installed by spawn calls `setsid` in the child
after the OS creates it and before the target program is executed; the hook
always reports success regardless of the `setsid` result, and the spawn call
fails exactly when the overall spawn syscall fails. -/
theorem setsid_best_effort_before_exec (cmd : String) (args : List String) :
    (∀ r : Int, preExecHook r = Except.ok ())
    ∧ childExecTrace (Process.configure (Process.build_command cmd args))
        = [ChildEvent.setsidCall, ChildEvent.execProgram cmd args]
    ∧ (∀ world : SpawnOutcome, ∀ e : String,
        Process.spawn_with_args cmd args world = Except.error e ↔
          world = SpawnOutcome.failure e) := by
  refine ⟨fun _ => rfl, ?_, ?_⟩
  · simp [childExecTrace, Process.configure, Process.build_command, Command.new,
      Command.argsAppend]
  · intro world e
    cases world with
    | success pid0 outB errB =>
      rw [spawn_with_args_success]
      simp
    | failure e0 =>
      simp [Process.spawn_with_args, Process.spawn_child_process, osSpawn]

/-- Witness for C2 at a concrete command. -/
theorem setsid_best_effort_before_exec_witness :
    childExecTrace (Process.configure (Process.build_command "sleep" ["1"]))
      = [ChildEvent.setsidCall, ChildEvent.execProgram "sleep" ["1"]] :=
  (setsid_best_effort_before_exec "sleep" ["1"]).2.1

/-- C3: `kill` succeeds exactly when the external termination facility was
invoked and reported a success exit status; if it ran with a non-success
status the error carries the pid, and if it could not be invoked the error
carries the underlying OS error description. -/
theorem kill_result_classification (p : Process) (world : KillOutcome) :
    ((p.kill world).1 = Except.ok () ↔
      ∃ st, world = KillOutcome.ran st ∧ statusSuccess st = true)
    ∧ (∀ st : Option Nat, world = KillOutcome.ran st → statusSuccess st = false →
        (p.kill world).1 =
          Except.error ("Failed to kill process with PID: " ++ Nat.repr p.pid))
    ∧ (∀ e : String, world = KillOutcome.notInvoked e →
        (p.kill world).1 = Except.error ("Error executing kill command: " ++ e)) := by
  refine ⟨?_, ?_, ?_⟩
  · cases world with
    | ran st =>
      by_cases h : statusSuccess st = true <;>
        simp [Process.kill, runStatus, h]
    | notInvoked e => simp [Process.kill, runStatus]
  · intro st hw h
    subst hw
    simp [Process.kill, runStatus, h]
  · intro e hw
    subst hw
    simp [Process.kill, runStatus]

/-- Witness for C3: the facility ran and exited with status 1. -/
theorem kill_result_classification_witness :
    (Process.kill { pid := 5, child := none } (KillOutcome.ran (some 1))).1
      = Except.error ("Failed to kill process with PID: " ++ Nat.repr 5) :=
  (kill_result_classification { pid := 5, child := none }
    (KillOutcome.ran (some 1))).2.1 (some 1) rfl (by decide)

/-- C4: if the underlying OS spawn fails, `spawn_with_args` and `spawn`
return the OS error description and no handle is produced. -/
theorem spawn_failure_is_error (cmd : String) (args : List String) (e : String) :
    Process.spawn_with_args cmd args (SpawnOutcome.failure e) = Except.error e
    ∧ Process.spawn cmd (SpawnOutcome.failure e) = Except.error e
    ∧ ∀ p : Process,
        Process.spawn_with_args cmd args (SpawnOutcome.failure e) ≠ Except.ok p := by
  refine ⟨rfl, rfl, ?_⟩
  intro p h
  simp [Process.spawn_with_args, Process.spawn_child_process, osSpawn] at h

/-- Witness for C4 at a concrete failing spawn. -/
theorem spawn_failure_is_error_witness :
    Process.spawn "missing" (SpawnOutcome.failure "No such file or directory")
      = Except.error "No such file or directory" :=
  (spawn_failure_is_error "missing" [] "No such file or directory").2.1

/-- C5: the pid is set at construction from the OS-assigned identifier and no
operation changes it; `kill` leaves the handle unchanged even on failure, so
a retried `kill` behaves identically and `pid` reads the same value. -/
theorem pid_set_once_never_changed (p : Process) (world world2 : KillOutcome)
    (cmd : String) (args : List String) (pid0 : Nat) (outB errB : List Nat)
    (q : Process)
    (hq : Process.spawn_with_args cmd args (SpawnOutcome.success pid0 outB errB)
      = Except.ok q) :
    q.pid = pid0
    ∧ p.stdout.2.pid = p.pid
    ∧ p.stderr.2.pid = p.pid
    ∧ (p.kill world).2 = p
    ∧ (p.kill world).2.pid = p.pid
    ∧ ((p.kill world).2.kill world2).1 = (p.kill world2).1 := by
  have hk := kill_preserves_handle p world
  refine ⟨?_, ?_, ?_, hk, by rw [hk], by rw [hk]⟩
  · rw [spawn_with_args_success] at hq
    have h := Except.ok.inj hq
    rw [← h]
  · cases hp : p.child with
    | none => simp [Process.stdout, hp]
    | some c =>
      cases hs : c.stdout with
      | none => simp [Process.stdout, hp, hs]
      | some bs => simp [Process.stdout, hp, hs]
  · cases hp : p.child with
    | none => simp [Process.stderr, hp]
    | some c =>
      cases hs : c.stderr with
      | none => simp [Process.stderr, hp, hs]
      | some bs => simp [Process.stderr, hp, hs]

/-- Witness for C5 at a concrete spawn and kill outcome. -/
theorem pid_set_once_never_changed_witness :
    ({ pid := 3, child := some { id := 3, stdout := some [], stderr := some [] } } : Process).pid
      = 3 :=
  (pid_set_once_never_changed { pid := 9, child := none } (KillOutcome.ran (some 1))
    (KillOutcome.ran none) "echo" ["hi"] 3 [] []
    { pid := 3, child := some { id := 3, stdout := some [], stderr := some [] } }
    (by rw [spawn_with_args_success])).1

/-- C6: the two accessors are independent: each returns exactly its own
stream's content, reading stdout changes only the stdout capture handle
(pid and the stderr handle are untouched, so stderr still yields its own
content afterwards), and this frame property holds even when the stdout read
fails on invalid data. -/
theorem streams_independent (p : Process) (c : Child) (outB errB : List Nat)
    (sErr : String)
    (hc : p.child = some c) (ho : c.stdout = some outB) (he : c.stderr = some errB)
    (hde : utf8DecodeString errB = some sErr) :
    (∀ sOut : String, utf8DecodeString outB = some sOut →
      p.stdout.1 = Except.ok sOut)
    ∧ p.stderr.1 = Except.ok sErr
    ∧ p.stdout.2.stderr.1 = Except.ok sErr
    ∧ p.stdout.2.pid = p.pid
    ∧ p.stdout.2.child = some { c with stdout := some [] }
    ∧ (utf8DecodeString outB = none →
        p.stdout.1 = Except.error "stream did not contain valid UTF-8"
        ∧ p.stdout.2.stderr.1 = Except.ok sErr
        ∧ p.stdout.2.pid = p.pid) := by
  refine ⟨?_, ?_, ?_, ?_, ?_, ?_⟩
  · intro sOut hdo
    simp [Process.stdout, hc, ho, readToString, hdo]
  · simp [Process.stderr, hc, he, readToString, hde]
  · simp [Process.stdout, Process.stderr, hc, ho, he, readToString, hde]
  · simp [Process.stdout, hc, ho]
  · simp [Process.stdout, hc, ho]
  · intro hdo
    refine ⟨?_, ?_, ?_⟩
    · simp [Process.stdout, hc, ho, readToString, hdo]
    · simp [Process.stdout, Process.stderr, hc, ho, he, readToString, hde]
    · simp [Process.stdout, hc, ho]

/-- Witness for C6 with invalid stdout bytes and stderr bytes "err". -/
theorem streams_independent_witness :
    (Process.stderr
      { pid := 2
        child := some { id := 2, stdout := some [255], stderr := some [101, 114, 114] } }).1
      = Except.ok "err" :=
  (streams_independent
    { pid := 2
      child := some { id := 2, stdout := some [255], stderr := some [101, 114, 114] } }
    { id := 2, stdout := some [255], stderr := some [101, 114, 114] }
    [255] [101, 114, 114] "err" rfl rfl rfl (by decide)).2.1

/-- C7: the accessors have no preconditions: on a handle with no child or
with the corresponding capture handle absent, they return an empty string
successfully, never an error. -/
theorem accessors_total_without_capture (p : Process) :
    (p.child = none → p.stdout.1 = Except.ok "" ∧ p.stderr.1 = Except.ok "")
    ∧ (∀ c : Child, p.child = some c → c.stdout = none → p.stdout.1 = Except.ok "")
    ∧ (∀ c : Child, p.child = some c → c.stderr = none → p.stderr.1 = Except.ok "") := by
  refine ⟨?_, ?_, ?_⟩
  · intro h
    constructor <;> simp [Process.stdout, Process.stderr, h]
  · intro c hc hs
    simp [Process.stdout, hc, hs]
  · intro c hc hs
    simp [Process.stderr, hc, hs]

/-- Witness for C7 on a handle with no child. -/
theorem accessors_total_without_capture_witness :
    (Process.stdout { pid := 7, child := none }).1 = Except.ok "" :=
  ((accessors_total_without_capture { pid := 7, child := none }).1 rfl).1

/-- C8: `kill` invokes the external facility as program "kill" with exactly
one argument, the pid rendered in base-10 decimal, and the facility's exit
status is the sole success signal: the call succeeds exactly when the
facility exited normally with code zero. -/
theorem kill_command_shape (p : Process) :
    p.killCommand.program = "kill"
    ∧ p.killCommand.args = [(Nat.toDigits 10 p.pid).asString]
    ∧ (∀ world : KillOutcome,
        (p.kill world).1 = Except.ok () ↔ world = KillOutcome.ran (some 0)) := by
  refine ⟨rfl, rfl, ?_⟩
  intro world
  cases world with
  | ran st =>
    cases st with
    | none => simp [Process.kill, runStatus, statusSuccess]
    | some n =>
      cases n with
      | zero => simp [Process.kill, runStatus, statusSuccess]
      | succ m => simp [Process.kill, runStatus, statusSuccess]
  | notInvoked e => simp [Process.kill, runStatus]

/-- Witness for C8 at a concrete handle. -/
theorem kill_command_shape_witness :
    (Process.killCommand { pid := 12, child := none }).args
      = [(Nat.toDigits 10 12).asString] :=
  (kill_command_shape { pid := 12, child := none }).2.1

/-- C9: `spawn cmd` is `spawn_with_args cmd []`: both build the command with
the same program, arguments, stream configuration and pre-exec hook, and
produce the same result in every environment. -/
theorem spawn_eq_spawn_with_args_empty (cmd : String) (world : SpawnOutcome) :
    Process.spawn cmd world = Process.spawn_with_args cmd [] world :=
  rfl

/-- C10: spawn configures stdin as null and both output streams as piped, so
every successfully spawned handle carries both capture handles and each
accessor takes the read path (its result is the decoded stream, not the
missing-handle fallback). -/
theorem spawn_pipes_all_streams (cmd : String) (args : List String) :
    (Process.configure (Process.build_command cmd args)).stdinCfg = Stdio.null
    ∧ (Process.configure (Process.build_command cmd args)).stdoutCfg = Stdio.piped
    ∧ (Process.configure (Process.build_command cmd args)).stderrCfg = Stdio.piped
    ∧ (∀ world : SpawnOutcome, ∀ p : Process,
        Process.spawn_with_args cmd args world = Except.ok p →
        ∃ c : Child, p.child = some c
          ∧ (∃ ob, c.stdout = some ob ∧ p.stdout.1 = readToString ob)
          ∧ (∃ eb, c.stderr = some eb ∧ p.stderr.1 = readToString eb)) := by
  refine ⟨rfl, rfl, rfl, ?_⟩
  intro world p h
  cases world with
  | failure e =>
    simp [Process.spawn_with_args, Process.spawn_child_process, osSpawn] at h
  | success pid0 outB errB =>
    rw [spawn_with_args_success] at h
    have hp := Except.ok.inj h
    subst hp
    refine ⟨{ id := pid0, stdout := some outB, stderr := some errB }, rfl,
      ⟨outB, rfl, ?_⟩, ⟨errB, rfl, ?_⟩⟩
    · simp [Process.stdout]
    · simp [Process.stderr]

/-- Witness for C10 at a concrete command. -/
theorem spawn_pipes_all_streams_witness :
    (Process.configure (Process.build_command "true" [])).stdinCfg = Stdio.null :=
  (spawn_pipes_all_streams "true" []).1

end XProcess
